import Mathlib

/-!
Verification of the RHSummit2019 notebooks: MNIST data preparation,
the Keras sequential model they assemble, and the checkpoint handling
around it.  Machine arithmetic is modelled exactly over an ordered
field (rationals at witnesses); tensors are nested lists filled in
row-major order, matching the NumPy array layout the notebooks use.
-/

namespace MNIST

/-! ## Row-major chunking (the semantics of NumPy reshape) -/

/-- Split a list into `k` consecutive chunks of `n` elements each
(row-major grouping; short final chunks appear only when the list is
too short, which the reshape length check rules out). -/
def chunkFuel (n : Nat) : Nat → List α → List (List α)
  | 0, _ => []
  | k + 1, l => l.take n :: chunkFuel n k (l.drop n)

/-! ## Data Preparer

The notebook reshapes each flat 784-pixel row into a 28x28x1 tensor
(`train_features.reshape((n, 28, 28, 1))`, row-major NumPy fill) and
then normalizes by dividing every element by 255
(`train_features / 255.0`). -/

/-- A height x width x channel tensor as nested lists, outermost index
first, matching the row-major NumPy layout. -/
abbrev Tensor3 (α : Type) : Type := List (List (List α))

/-- Reshape one flat pixel row into a 28x28x1 tensor: row-major fill of
28 rows of 28 single-channel cells, exactly what `reshape((28, 28, 1))`
does to a length-784 vector. -/
def pixelTensor (p : List α) : Tensor3 α :=
  chunkFuel 28 28 (p.map fun x => [x])

/-- Batch reshape, `features.reshape((n, 28, 28, 1))`: one tensor per
row. -/
def reshapeFeatures (rows : List (List α)) : List (Tensor3 α) :=
  rows.map pixelTensor

/-- NumPy `reshape` raises (and preparation aborts) when the element
count does not match the target shape; for the rectangular row arrays
the notebook loads, this is exactly the per-row length-784 check. -/
def prepareFeatures (rows : List (List ℚ)) : Option (List (Tensor3 ℚ)) :=
  if ∀ r ∈ rows, r.length = 784 then some (reshapeFeatures rows)
  else none

/-- Elementwise division by 255 of a whole batch of tensors, the
meaning of `train_features / 255.0` on the 4-dimensional array. -/
def normalizeFeatures (t : List (Tensor3 ℚ)) : List (Tensor3 ℚ) :=
  t.map (List.map (List.map (List.map fun x => x / 255)))

/-- All scalar entries of a batch of tensors, in row-major order. -/
def batchElems (t : List (Tensor3 ℚ)) : List ℚ :=
  t.flatten.flatten.flatten

/-- Elementwise scaling back by 255 (used to state exact recovery of
the original pixel values). -/
def scaleBack (t : List (Tensor3 ℚ)) : List (Tensor3 ℚ) :=
  t.map (List.map (List.map (List.map fun x => x * 255)))

/-! ## Model Builder: the layer sequence

The notebook builds `tf.keras.models.Sequential()` and issues six
`model.add` calls: Conv2D(32, 3x3, input 28x28x1), MaxPooling2D(2x2,
stride 2), Flatten, Dense(64, relu), Dropout(0.2), Dense(10, softmax).
-/

inductive Activation where
  | relu : Activation
  | softmax : Activation
deriving DecidableEq

inductive Layer where
  | conv2D (filters kernelH kernelW inputH inputW inputC : Nat) : Layer
  | maxPooling2D (poolH poolW strides : Nat) : Layer
  | flatten : Layer
  | dense (units : Nat) (activation : Activation) : Layer
  | dropout (rate : ℚ) : Layer
deriving DecidableEq

/-- The freshly constructed `tf.keras.models.Sequential()`. -/
def emptyModel : List Layer := []

/-- One `model.add(layer)` call: appends the layer to the sequence. -/
def addLayer (m : List Layer) (l : Layer) : List Layer := m ++ [l]

/-- The model assembled by the six `model.add` calls of the notebook,
in source order. -/
def mnistModel : List Layer :=
  addLayer (addLayer (addLayer (addLayer (addLayer (addLayer emptyModel
    (Layer.conv2D 32 3 3 28 28 1))
    (Layer.maxPooling2D 2 2 2))
    Layer.flatten)
    (Layer.dense 64 Activation.relu))
    (Layer.dropout (1/5)))
    (Layer.dense 10 Activation.softmax)

/-! ## Forward-pass semantics of the layers

Generic over a linear ordered field; the exponential of the softmax is
passed in as a positive function, so the statements cover the real
exponential as well as computable stand-ins at witnesses. -/

/-- Element access in a 3-dimensional tensor, zero outside bounds. -/
def tget [LinearOrderedField α] (t : Tensor3 α) (i j k : Nat) : α :=
  ((t.getD i []).getD j []).getD k 0

/-- Weighted sum of a neuron, `dot(weights, inputs)`. -/
def dot [LinearOrderedField α] (xs ys : List α) : α :=
  (List.zipWith (fun a b => a * b) xs ys).sum

/-- Fully connected layer: one weighted sum plus bias per unit. -/
def denseLayer [LinearOrderedField α] (w : List (List α)) (b : List α)
    (x : List α) : List α :=
  List.zipWith (fun wr bv => dot wr x + bv) w b

/-- Rectified linear activation applied elementwise. -/
def reluLayer [LinearOrderedField α] (x : List α) : List α :=
  x.map fun v => max v 0

/-- Softmax: exponentials divided by their sum, one score per unit. -/
def softmaxLayer [LinearOrderedField α] (e : α → α) (x : List α) : List α :=
  (x.map e).map fun v => v / (x.map e).sum

/-- Valid-padding 2-d convolution, channels last: output position
`(i, j)` holds, per filter, the bias plus the weighted sum of the
kernel window of the input (linear activation, as in the notebook
where Conv2D is given no activation). -/
def conv2dValid [LinearOrderedField α] (kh kw : Nat)
    (filters : List (Tensor3 α)) (biases : List α) (t : Tensor3 α) :
    Tensor3 α :=
  (List.range (t.length - (kh - 1))).map fun i =>
    (List.range ((t.headD []).length - (kw - 1))).map fun j =>
      List.zipWith (fun f b =>
        b + ((List.range kh).map fun di =>
          ((List.range kw).map fun dj =>
            ((List.range (((f.headD []).headD []).length)).map fun k =>
              tget f di dj k * tget t (i + di) (j + dj) k).sum).sum).sum)
        filters biases

/-- MaxPooling2D with a 2x2 pool and stride 2: each output position is
the maximum of a non-overlapping 2x2 sub-grid of its channel slice, so
each spatial dimension is halved (integer division). -/
def maxPool2x2 [LinearOrderedField α] (t : Tensor3 α) : Tensor3 α :=
  (List.range (t.length / 2)).map fun i =>
    (List.range ((t.headD []).length / 2)).map fun j =>
      (List.range (((t.headD []).headD []).length)).map fun k =>
        max (max (tget t (2 * i) (2 * j) k) (tget t (2 * i) (2 * j + 1) k))
          (max (tget t (2 * i + 1) (2 * j) k)
            (tget t (2 * i + 1) (2 * j + 1) k))

/-- Flatten: collapse a tensor into one row-major sequence. -/
def flattenLayer (t : Tensor3 α) : List α := t.flatten.flatten

/-- Dropout with keep mask `mask` (the source of randomness): during
training masked-out activations become zero and kept ones are rescaled
by `1 / (1 - rate)` (inverted dropout); outside training the input
passes through unchanged. -/
def dropoutLayer [LinearOrderedField α] (training : Bool) (rate : α)
    (mask : List Bool) (x : List α) : List α :=
  if training then
    List.zipWith (fun keep v => if keep then v / (1 - rate) else 0) mask x
  else x

/-- All trainable parameters of the six-layer network. -/
structure ModelParams (α : Type) where
  convFilters : List (Tensor3 α)
  convBiases : List α
  dense1W : List (List α)
  dense1B : List α
  dense2W : List (List α)
  dense2B : List α
deriving DecidableEq

/-- One forward pass through the six layers in their source order.
`training` and `mask` feed the dropout layer. -/
def forward [LinearOrderedField α] (e : α → α) (training : Bool)
    (mask : List Bool) (p : ModelParams α) (input : Tensor3 α) : List α :=
  softmaxLayer e (denseLayer p.dense2W p.dense2B
    (dropoutLayer training (1 / 5) mask
      (reluLayer (denseLayer p.dense1W p.dense1B
        (flattenLayer (maxPool2x2
          (conv2dValid 3 3 p.convFilters p.convBiases input)))))))

/-- Inference, `model.predict(batch)`: a forward pass per input tensor
with training off (the dropout mask is irrelevant and passed empty). -/
def modelPredict [LinearOrderedField α] (e : α → α) (p : ModelParams α)
    (batch : List (Tensor3 α)) : List (List α) :=
  batch.map (forward e false [] p)

/-! ## Checkpoints

Modelled from the spec: a single-file checkpoint holds the layer
configuration, the parameters and the optimizer state (spec section 3);
the directory form holds an assets list, a structure definition, and a
variables section of per-variable files, each carrying its shape and
its flat row-major values (spec sections 4.3 and 6).  The conversion
itself is performed by the external framework through
`tf.keras.models.load_model` / `save_model`; only its contract is in
the repository. -/

structure Checkpoint (α : Type) where
  config : List Layer
  params : ModelParams α
  optState : Option (List α)
deriving DecidableEq

/-- One serialized variable: its shape and its flat row-major data. -/
structure SerVar (α : Type) where
  shape : List Nat
  data : List α
deriving DecidableEq

/-- Directory-form checkpoint: assets, structure definition, and the
parameter-variable files. -/
structure DirCheckpoint (α : Type) where
  assets : List String
  structureDef : List Layer
  varFiles : List (SerVar α)
deriving DecidableEq

/-- Flat row-major data of a matrix. -/
def flatten2 (m : List (List α)) : List α := m.flatten

/-- Flat row-major data of a 3-dimensional tensor. -/
def flatten3 (t : Tensor3 α) : List α := (t.map List.flatten).flatten

/-- Flat row-major data of a stack of 3-dimensional tensors. -/
def flatten4 (f : List (Tensor3 α)) : List α := (f.map flatten3).flatten

/-- Serialize a vector variable. -/
def ser1 (v : List α) : SerVar α := ⟨[v.length], v⟩

/-- Serialize a matrix variable with its measured shape. -/
def ser2 (m : List (List α)) : SerVar α :=
  ⟨[m.length, (m.headD []).length], flatten2 m⟩

/-- Serialize a rank-4 variable with its measured shape. -/
def ser4 (f : List (Tensor3 α)) : SerVar α :=
  ⟨[f.length, (f.headD []).length, ((f.headD []).headD []).length,
    (((f.headD []).headD []).headD []).length], flatten4 f⟩

/-- Rebuild a matrix from its shape and flat data. -/
def unflatten2 (r c : Nat) (d : List α) : List (List α) :=
  chunkFuel c r d

/-- Rebuild a 3-dimensional tensor from its shape and flat data. -/
def unflatten3 (h w c : Nat) (d : List α) : Tensor3 α :=
  (chunkFuel (w * c) h d).map fun row => chunkFuel c w row

/-- Rebuild a stack of 3-dimensional tensors from shape and flat
data. -/
def unflatten4 (n h w c : Nat) (d : List α) : List (Tensor3 α) :=
  (chunkFuel (h * (w * c)) n d).map (unflatten3 h w c)

/-- The Format Converter: read the single-file checkpoint, write the
equivalent directory form (assets empty, structure definition equal to
the layer configuration, one variable file per parameter tensor in
layer order). -/
def convertToDir (cp : Checkpoint α) : DirCheckpoint α :=
  ⟨[], cp.config,
    [ser4 cp.params.convFilters, ser1 cp.params.convBiases,
      ser2 cp.params.dense1W, ser1 cp.params.dense1B,
      ser2 cp.params.dense2W, ser1 cp.params.dense2B]⟩

/-- Load the parameters back from a directory-form checkpoint,
rebuilding each tensor from its recorded shape; fails on any other
variable layout. -/
def loadDirParams (d : DirCheckpoint α) : Option (ModelParams α) :=
  match d.varFiles with
  | [⟨[n, h, w, c], fd⟩, ⟨[_], cb⟩, ⟨[r1, c1], w1⟩, ⟨[_], b1⟩,
      ⟨[r2, c2], w2⟩, ⟨[_], b2⟩] =>
    some ⟨unflatten4 n h w c fd, cb, unflatten2 r1 c1 w1, b1,
      unflatten2 r2 c2 w2, b2⟩
  | _ => none

/-- Inference served from the directory-form checkpoint. -/
def predictFromDir [LinearOrderedField α] (e : α → α)
    (d : DirCheckpoint α) (batch : List (Tensor3 α)) :
    Option (List (List α)) :=
  (loadDirParams d).map fun p => modelPredict e p batch

/-- Inference run directly from the single-file checkpoint. -/
def predictFromFile [LinearOrderedField α] (e : α → α)
    (cp : Checkpoint α) (batch : List (Tensor3 α)) : List (List α) :=
  modelPredict e cp.params batch

/-- Rectangularity of a matrix: every row as long as the first. -/
def rect2 (m : List (List α)) : Prop :=
  ∀ r ∈ m, r.length = (m.headD []).length

/-- A tensor of the given shape: `h` rows of `w` cells of `c`
channels. -/
def isShape3 (h w c : Nat) (t : Tensor3 α) : Prop :=
  t.length = h ∧ ∀ r ∈ t, r.length = w ∧ ∀ cl ∈ r, cl.length = c

/-- Uniform shape of a stack of tensors, measured on the first one. -/
def rect4 (f : List (Tensor3 α)) : Prop :=
  ∀ t ∈ f, isShape3 ((f.headD []).length) (((f.headD []).headD []).length)
    ((((f.headD []).headD []).headD []).length) t

/-! ## Saving the single-file checkpoint

Modelled from the spec: the external framework writes one named file
holding layer graph, weights and optimizer state (spec sections 3 and
6).  Its documented save semantics: with the overwrite flag off, an
existing file of that name makes the save stop and ask instead of
writing; with it on, the file is replaced silently.  The
include-optimizer flag decides whether the optimizer state enters the
checkpoint.  The notebook calls
`model.save(h5-name, overwrite=True, include_optimizer=True)`. -/

/-- A flat name-to-checkpoint file store. -/
structure FileStore (α : Type) where
  files : List (String × Checkpoint α)

/-- Look a checkpoint file up by name. -/
def lookupFile (fs : FileStore α) (name : String) : Option (Checkpoint α) :=
  (fs.files.find? fun pr => pr.1 == name).map Prod.snd

/-- Write a checkpoint under a name, replacing any previous file of
that name. -/
def writeFile (fs : FileStore α) (name : String) (cp : Checkpoint α) :
    FileStore α :=
  ⟨(name, cp) :: fs.files.filter fun pr => !(pr.1 == name)⟩

/-- Modelled from the spec: the save operation of the external
framework.  Refuses to write over an existing file unless the
overwrite flag is set; stores the optimizer state only when the
include-optimizer flag is set. -/
def saveModelH5 (fname : String) (overwrite includeOpt : Bool)
    (config : List Layer) (p : ModelParams α) (opt : List α)
    (fs : FileStore α) : Option (FileStore α) :=
  if !overwrite && (lookupFile fs fname).isSome then none
  else some (writeFile fs fname ⟨config, p, if includeOpt then some opt else none⟩)

/-- The save call of the notebook, flags as in the source. -/
def saveCall (p : ModelParams ℚ) (opt : List ℚ) (fs : FileStore ℚ) :
    Option (FileStore ℚ) :=
  saveModelH5 "mnist-model.h5" true true mnistModel p opt fs

/-! ## Helper lemmas about chunking and flattening -/

theorem chunkFuel_length (n k : Nat) (l : List α) :
    (chunkFuel n k l).length = k := by
  induction k generalizing l with
  | zero => rfl
  | succ k ih => simp [chunkFuel, ih]

theorem chunkFuel_mem_length (n k : Nat) (l : List α)
    (h : l.length = n * k) :
    ∀ c ∈ chunkFuel n k l, c.length = n := by
  induction k generalizing l with
  | zero => intro c hc; simp [chunkFuel] at hc
  | succ k ih =>
      intro c hc
      simp only [chunkFuel, List.mem_cons] at hc
      rcases hc with rfl | hc
      · have : n ≤ l.length := by
          rw [h, Nat.mul_succ]; exact Nat.le_add_left n (n * k)
        simp [List.length_take, Nat.min_eq_left this]
      · exact ih (l.drop n) (by simp [List.length_drop, h, Nat.mul_succ]) c hc

theorem chunkFuel_mem_subset (n k : Nat) (l : List α) :
    ∀ c ∈ chunkFuel n k l, ∀ x ∈ c, x ∈ l := by
  induction k generalizing l with
  | zero => intro c hc; simp [chunkFuel] at hc
  | succ k ih =>
      intro c hc x hx
      simp only [chunkFuel, List.mem_cons] at hc
      rcases hc with rfl | hc
      · exact List.take_subset n l hx
      · exact List.drop_subset n l (ih (l.drop n) c hc x hx)

theorem chunkFuel_flatten (n k : Nat) (l : List α) (h : l.length = n * k) :
    (chunkFuel n k l).flatten = l := by
  induction k generalizing l with
  | zero =>
      simp only [chunkFuel, List.flatten_nil]
      have : l.length = 0 := by simpa using h
      exact ((List.length_eq_zero.mp this)).symm
  | succ k ih =>
      simp only [chunkFuel, List.flatten_cons]
      rw [ih (l.drop n) (by simp [List.length_drop, h, Nat.mul_succ])]
      exact List.take_append_drop n l

theorem flatten_chunkFuel (k : Nat) (m : List (List α))
    (h : ∀ r ∈ m, r.length = k) :
    chunkFuel k m.length m.flatten = m := by
  induction m with
  | nil => rfl
  | cons r m ih =>
      have hr : r.length = k := h r (List.mem_cons_self r m)
      subst hr
      simp only [List.length_cons, List.flatten_cons, chunkFuel,
        List.take_left, List.drop_left]
      rw [ih fun x hx => h x (List.mem_cons_of_mem r hx)]

theorem flatten_map_singleton (l : List α) :
    (l.map fun x => [x]).flatten = l := by
  induction l with
  | nil => rfl
  | cons x l ih => simp [ih]

theorem getD_map_range (n i : Nat) (f : Nat → α) (d : α) (hi : i < n) :
    ((List.range n).map f).getD i d = f i := by
  rw [List.getD_eq_getElem?_getD]
  rw [List.getElem?_map, List.getElem?_range hi]
  rfl

theorem sum_const_nat (l : List Nat) (k : Nat) (h : ∀ x ∈ l, x = k) :
    l.sum = l.length * k := by
  induction l with
  | nil => simp
  | cons a l ih =>
      have ha : a = k := h a (List.mem_cons_self a l)
      have := ih fun x hx => h x (List.mem_cons_of_mem a hx)
      simp [ha, this, Nat.succ_mul, Nat.add_comm]

theorem flatten_map_map (f : α → β) (L : List (List α)) :
    (L.map (List.map f)).flatten = L.flatten.map f := by
  induction L with
  | nil => rfl
  | cons l L ih =>
      simp only [List.map_cons, List.flatten_cons, List.map_append, ih]

theorem map_map_id {β : Type} (F G : β → β) (hFG : ∀ x, G (F x) = x)
    (l : List β) : (l.map F).map G = l := by
  rw [List.map_map]
  calc l.map (G ∘ F) = l.map id := List.map_congr_left fun x _ => hFG x
    _ = l := List.map_id l

theorem batchElems_map (f : ℚ → ℚ) (t : List (Tensor3 ℚ)) :
    batchElems (t.map (List.map (List.map (List.map f))))
      = (batchElems t).map f := by
  unfold batchElems
  rw [flatten_map_map, flatten_map_map, flatten_map_map]

theorem flatten_length_const (r : List (List α)) (c : Nat)
    (h : ∀ cl ∈ r, cl.length = c) : r.flatten.length = r.length * c := by
  rw [List.length_flatten]
  have hx : ∀ x ∈ r.map List.length, x = c := by
    intro x hx
    obtain ⟨cl, hcl, rfl⟩ := List.mem_map.mp hx
    exact h cl hcl
  rw [sum_const_nat _ c hx, List.length_map]

theorem flatten3_length (t : Tensor3 α) (h w c : Nat)
    (hs : isShape3 h w c t) : (flatten3 t).length = h * (w * c) := by
  obtain ⟨hh, hrows⟩ := hs
  unfold flatten3
  have hx : ∀ x ∈ t.map List.flatten, x.length = w * c := by
    intro x hx
    obtain ⟨row, hrow, rfl⟩ := List.mem_map.mp hx
    rw [flatten_length_const row c (hrows row hrow).2, (hrows row hrow).1]
  rw [flatten_length_const (t.map List.flatten) (w * c) hx,
    List.length_map, hh]

theorem unflatten2_ser (m : List (List α)) (h : rect2 m) :
    unflatten2 m.length ((m.headD []).length) (flatten2 m) = m :=
  flatten_chunkFuel _ m h

theorem unflatten3_ser (t : Tensor3 α) (h w c : Nat)
    (hs : isShape3 h w c t) : unflatten3 h w c (flatten3 t) = t := by
  obtain ⟨hh, hrows⟩ := hs
  unfold unflatten3 flatten3
  have h1 : chunkFuel (w * c) h (t.map List.flatten).flatten
      = t.map List.flatten := by
    have hlen : ∀ r ∈ t.map List.flatten, r.length = w * c := by
      intro r hr
      obtain ⟨row, hrow, rfl⟩ := List.mem_map.mp hr
      rw [flatten_length_const row c (hrows row hrow).2, (hrows row hrow).1]
    have h2 := flatten_chunkFuel (w * c) (t.map List.flatten) hlen
    rwa [List.length_map, hh] at h2
  rw [h1, List.map_map]
  have h3 : ∀ row ∈ t, ((fun d => chunkFuel c w d) ∘ List.flatten) row = row := by
    intro row hrow
    have h4 := flatten_chunkFuel c row (hrows row hrow).2
    rw [(hrows row hrow).1] at h4
    exact h4
  calc t.map ((fun d => chunkFuel c w d) ∘ List.flatten)
      = t.map id := List.map_congr_left h3
    _ = t := List.map_id t

theorem unflatten4_ser (f : List (Tensor3 α)) (h w c : Nat)
    (hf : ∀ t ∈ f, isShape3 h w c t) :
    unflatten4 f.length h w c (flatten4 f) = f := by
  unfold unflatten4 flatten4
  have h1 : chunkFuel (h * (w * c)) f.length (f.map flatten3).flatten
      = f.map flatten3 := by
    have hlen : ∀ r ∈ f.map flatten3, r.length = h * (w * c) := by
      intro r hr
      obtain ⟨t, ht, rfl⟩ := List.mem_map.mp hr
      exact flatten3_length t h w c (hf t ht)
    have h2 := flatten_chunkFuel (h * (w * c)) (f.map flatten3) hlen
    rwa [List.length_map] at h2
  rw [h1, List.map_map]
  have h3 : ∀ t ∈ f, (unflatten3 h w c ∘ flatten3) t = t := by
    intro t ht
    exact unflatten3_ser t h w c (hf t ht)
  calc f.map (unflatten3 h w c ∘ flatten3)
      = f.map id := List.map_congr_left h3
    _ = f := List.map_id f

theorem sum_map_div [LinearOrderedField α] (l : List α) (s : α) :
    (l.map fun v => v / s).sum = l.sum / s := by
  induction l with
  | nil => simp
  | cons a l ih => simp [ih, add_div]

theorem softmaxLayer_sum [LinearOrderedField α] (e : α → α)
    (he : ∀ x, 0 < e x) (x : List α) (hx : x ≠ []) :
    (softmaxLayer e x).sum = 1 := by
  unfold softmaxLayer
  rw [sum_map_div]
  apply div_self
  apply ne_of_gt
  apply List.sum_pos
  · intro a ha
    obtain ⟨v, hv, rfl⟩ := List.mem_map.mp ha
    exact he v
  · simpa using hx

theorem dropout_true_zero [LinearOrderedField α] (rate : α)
    (mask : List Bool) (x : List α) (i : Nat)
    (hm : mask.getD i true = false) :
    (dropoutLayer true rate mask x).getD i 0 = 0 := by
  induction mask generalizing x i with
  | nil => rw [List.getD_nil] at hm; exact absurd hm (by decide)
  | cons b mask ih =>
      cases x with
      | nil => simp [dropoutLayer]
      | cons v x =>
          cases i with
          | zero =>
              simp only [List.getD_cons_zero] at hm
              simp [dropoutLayer, hm]
          | succ i =>
              simp only [List.getD_cons_succ] at hm
              simpa [dropoutLayer] using ih x i hm

/-! ## The claims -/

/-- C1: every row of pixel-sequence length 784 reshapes to exactly one
28x28x1 tensor (one tensor per row; 28 rows of 28 single-channel
cells) whose row-major flattening is the original row, so no element
is lost, duplicated or reordered. -/
theorem C1_reshape_rowMajor (rows : List (List ℚ))
    (h : ∀ r ∈ rows, r.length = 784) :
    (reshapeFeatures rows).length = rows.length ∧
    prepareFeatures rows = some (reshapeFeatures rows) ∧
    ∀ r ∈ rows,
      (pixelTensor r).length = 28 ∧
      (∀ q ∈ pixelTensor r, q.length = 28 ∧ ∀ c ∈ q, c.length = 1) ∧
      (pixelTensor r).flatten.flatten = r := by
  refine ⟨by simp [reshapeFeatures], ?_, ?_⟩
  · unfold prepareFeatures
    exact if_pos h
  · intro r hr
    have hlen : (r.map fun x => [x]).length = 28 * 28 := by
      rw [List.length_map, h r hr]
    refine ⟨chunkFuel_length 28 28 _, ?_, ?_⟩
    · intro q hq
      constructor
      · exact chunkFuel_mem_length 28 28 _ hlen q hq
      · intro c hc
        have hcmem : c ∈ r.map fun x => [x] :=
          chunkFuel_mem_subset 28 28 _ q hq c hc
        obtain ⟨x, hx, rfl⟩ := List.mem_map.mp hcmem
        rfl
    · show (chunkFuel 28 28 (r.map fun x => [x])).flatten.flatten = r
      rw [chunkFuel_flatten 28 28 _ hlen, flatten_map_singleton]

/-- Witness for C1 at a concrete length-784 pixel row. -/
theorem C1_reshape_rowMajor_witness :
    (∀ r ∈ [List.replicate 784 (0 : ℚ)], r.length = 784) ∧
    ((reshapeFeatures [List.replicate 784 (0 : ℚ)]).length
        = [List.replicate 784 (0 : ℚ)].length ∧
      prepareFeatures [List.replicate 784 (0 : ℚ)]
        = some (reshapeFeatures [List.replicate 784 (0 : ℚ)]) ∧
      ∀ r ∈ [List.replicate 784 (0 : ℚ)],
        (pixelTensor r).length = 28 ∧
        (∀ q ∈ pixelTensor r, q.length = 28 ∧ ∀ c ∈ q, c.length = 1) ∧
        (pixelTensor r).flatten.flatten = r) := by
  have h : ∀ r ∈ [List.replicate 784 (0 : ℚ)], r.length = 784 := by
    intro r hr
    rw [List.mem_singleton] at hr
    subst hr
    exact List.length_replicate 784 0
  exact ⟨h, C1_reshape_rowMajor _ h⟩

/-- C2: for a batch of pixel tensors with entries in [0, 255] (in
particular the integer pixel values the notebook loads), every entry
of the normalized batch lies in [0, 1], and scaling every entry back
by 255 recovers the original batch exactly over the rationals. -/
theorem C2_normalize_bounds (t : List (Tensor3 ℚ))
    (h : ∀ x ∈ batchElems t, 0 ≤ x ∧ x ≤ 255) :
    (∀ y ∈ batchElems (normalizeFeatures t), 0 ≤ y ∧ y ≤ 1) ∧
    scaleBack (normalizeFeatures t) = t := by
  constructor
  · intro y hy
    unfold normalizeFeatures at hy
    rw [batchElems_map] at hy
    obtain ⟨x, hx, rfl⟩ := List.mem_map.mp hy
    obtain ⟨hx0, hx255⟩ := h x hx
    refine ⟨div_nonneg hx0 (by norm_num), ?_⟩
    rw [div_le_one (by norm_num)]
    exact hx255
  · unfold normalizeFeatures scaleBack
    exact map_map_id _ _ (fun g => map_map_id _ _ (fun r => map_map_id _ _
      (fun c => map_map_id _ _
        (fun x => div_mul_cancel₀ x (by norm_num)) c) r) g) t

/-- Witness for C2 at a concrete batch holding the pixel values 0, 255
and 128. -/
theorem C2_normalize_bounds_witness :
    (∀ x ∈ batchElems [[[[(0 : ℚ), 255, 128]]]], 0 ≤ x ∧ x ≤ 255) ∧
    ((∀ y ∈ batchElems (normalizeFeatures [[[[(0 : ℚ), 255, 128]]]]),
        0 ≤ y ∧ y ≤ 1) ∧
      scaleBack (normalizeFeatures [[[[(0 : ℚ), 255, 128]]]])
        = [[[[(0 : ℚ), 255, 128]]]]) := by
  have h : ∀ x ∈ batchElems [[[[(0 : ℚ), 255, 128]]]], 0 ≤ x ∧ x ≤ 255 := by
    decide
  exact ⟨h, C2_normalize_bounds _ h⟩

/-- C8: a row whose pixel count differs from the expected 784 makes
preparation fail with no tensor produced and no recovery (the model of
the fatal reshape error). -/
theorem C8_malformed_fatal (rows : List (List ℚ)) (r : List ℚ)
    (hr : r ∈ rows) (hl : r.length ≠ 784) :
    prepareFeatures rows = none := by
  unfold prepareFeatures
  exact if_neg fun hall => hl (hall r hr)

/-- Witness for C8 at a concrete three-pixel row. -/
theorem C8_malformed_fatal_witness :
    [(1 : ℚ), 2, 3] ∈ [[(1 : ℚ), 2, 3]] ∧ [(1 : ℚ), 2, 3].length ≠ 784 ∧
    prepareFeatures [[(1 : ℚ), 2, 3]] = none :=
  ⟨by decide, by decide,
    C8_malformed_fatal [[(1 : ℚ), 2, 3]] [(1 : ℚ), 2, 3]
      (by decide) (by decide)⟩

/-- C3, counterexample: the assembled model does not have exactly five
layers — the six `model.add` calls of the notebook produce six. -/
theorem C3_counterexample : ¬ mnistModel.length = 5 := by decide

/-- C3, amended: the Model Builder assembles a fixed sequence of
exactly six processing layers — feature extractor, downsampler,
flattener, hidden classifier, regularizer, output classifier — in that
order. -/
theorem C3_amended :
    mnistModel = [Layer.conv2D 32 3 3 28 28 1, Layer.maxPooling2D 2 2 2,
      Layer.flatten, Layer.dense 64 Activation.relu, Layer.dropout (1 / 5),
      Layer.dense 10 Activation.softmax] ∧
    mnistModel.length = 6 := by
  constructor
  · rfl
  · rfl

/-- C5: a prediction request carrying a batch of exactly one tensor
returns exactly one class-score sequence; when the output layer has 10
units and the softmax exponential is positive (as the real exponential
is), that sequence has length 10 and sums exactly to 1. -/
theorem C5_predict_one_softmax {α : Type} [LinearOrderedField α]
    (e : α → α) (he : ∀ x, 0 < e x) (p : ModelParams α) (t : Tensor3 α)
    (hw : p.dense2W.length = 10) (hb : p.dense2B.length = 10) :
    (modelPredict e p [t]).length = 1 ∧
    ∀ out ∈ modelPredict e p [t], out.length = 10 ∧ out.sum = 1 := by
  refine ⟨rfl, ?_⟩
  intro out hout
  have hout2 : out = forward e false [] p t := by
    simpa [modelPredict] using hout
  subst hout2
  have hdlen : (denseLayer p.dense2W p.dense2B
      (dropoutLayer false (1 / 5) []
        (reluLayer (denseLayer p.dense1W p.dense1B
          (flattenLayer (maxPool2x2
            (conv2dValid 3 3 p.convFilters p.convBiases t))))))).length
      = 10 := by
    simp [denseLayer, List.length_zipWith, hw, hb]
  constructor
  · simp only [forward, softmaxLayer, List.length_map]
    exact hdlen
  · refine softmaxLayer_sum e he _ ?_
    intro hnil
    rw [hnil] at hdlen
    simp at hdlen

/-- Witness for C5 at a concrete positive exponential and concrete
10-unit output-layer parameters. -/
theorem C5_predict_one_softmax_witness :
    (∀ x : ℚ, 0 < (fun _ : ℚ => (1 : ℚ)) x) ∧
    (({ convFilters := [], convBiases := [], dense1W := [], dense1B := [],
        dense2W := List.replicate 10 [], dense2B := List.replicate 10 0 }
        : ModelParams ℚ).dense2W.length = 10) ∧
    (({ convFilters := [], convBiases := [], dense1W := [], dense1B := [],
        dense2W := List.replicate 10 [], dense2B := List.replicate 10 0 }
        : ModelParams ℚ).dense2B.length = 10) ∧
    ((modelPredict (fun _ : ℚ => (1 : ℚ))
        { convFilters := [], convBiases := [], dense1W := [], dense1B := [],
          dense2W := List.replicate 10 [], dense2B := List.replicate 10 0 }
        [([] : Tensor3 ℚ)]).length = 1 ∧
      ∀ out ∈ modelPredict (fun _ : ℚ => (1 : ℚ))
        { convFilters := [], convBiases := [], dense1W := [], dense1B := [],
          dense2W := List.replicate 10 [], dense2B := List.replicate 10 0 }
        [([] : Tensor3 ℚ)], out.length = 10 ∧ out.sum = 1) :=
  ⟨fun _ => one_pos, rfl, rfl,
    C5_predict_one_softmax (fun _ : ℚ => (1 : ℚ)) (fun _ => one_pos)
      { convFilters := [], convBiases := [], dense1W := [], dense1B := [],
        dense2W := List.replicate 10 [], dense2B := List.replicate 10 0 }
      ([] : Tensor3 ℚ) rfl rfl⟩

/-- C7: the downsampler output has each spatial dimension halved
(integer division, 26 to 13 in the concrete instance), and each output
entry is the maximum of its non-overlapping 2x2 input sub-grid. -/
theorem C7_maxpool {α : Type} [LinearOrderedField α] (t : Tensor3 α)
    (i j k : Nat) (hi : i < t.length / 2)
    (hj : j < (t.headD []).length / 2)
    (hk : k < ((t.headD []).headD []).length) :
    (maxPool2x2 t).length = t.length / 2 ∧
    (∀ row ∈ maxPool2x2 t, row.length = (t.headD []).length / 2) ∧
    tget (maxPool2x2 t) i j k =
      max (max (tget t (2 * i) (2 * j) k) (tget t (2 * i) (2 * j + 1) k))
        (max (tget t (2 * i + 1) (2 * j) k)
          (tget t (2 * i + 1) (2 * j + 1) k)) := by
  refine ⟨by simp [maxPool2x2], ?_, ?_⟩
  · intro row hrow
    obtain ⟨ii, hii, rfl⟩ := List.mem_map.mp hrow
    simp
  · show ((((maxPool2x2 t).getD i []).getD j []).getD k 0) = _
    unfold maxPool2x2
    rw [getD_map_range _ _ _ _ hi, getD_map_range _ _ _ _ hj,
      getD_map_range _ _ _ _ hk]

/-- Witness for C7 at a concrete 2x2 single-channel grid. -/
theorem C7_maxpool_witness :
    0 < ([[[(1 : ℚ)], [2]], [[3], [4]]] : Tensor3 ℚ).length / 2 ∧
    0 < (([[[(1 : ℚ)], [2]], [[3], [4]]] : Tensor3 ℚ).headD []).length / 2 ∧
    0 < ((([[[(1 : ℚ)], [2]], [[3], [4]]] : Tensor3 ℚ).headD []).headD
      []).length ∧
    ((maxPool2x2 ([[[(1 : ℚ)], [2]], [[3], [4]]] : Tensor3 ℚ)).length
        = ([[[(1 : ℚ)], [2]], [[3], [4]]] : Tensor3 ℚ).length / 2 ∧
      (∀ row ∈ maxPool2x2 ([[[(1 : ℚ)], [2]], [[3], [4]]] : Tensor3 ℚ),
        row.length
          = (([[[(1 : ℚ)], [2]], [[3], [4]]] : Tensor3 ℚ).headD
            []).length / 2) ∧
      tget (maxPool2x2 ([[[(1 : ℚ)], [2]], [[3], [4]]] : Tensor3 ℚ)) 0 0 0 =
        max (max (tget ([[[(1 : ℚ)], [2]], [[3], [4]]] : Tensor3 ℚ)
            (2 * 0) (2 * 0) 0)
          (tget ([[[(1 : ℚ)], [2]], [[3], [4]]] : Tensor3 ℚ)
            (2 * 0) (2 * 0 + 1) 0))
          (max (tget ([[[(1 : ℚ)], [2]], [[3], [4]]] : Tensor3 ℚ)
            (2 * 0 + 1) (2 * 0) 0)
          (tget ([[[(1 : ℚ)], [2]], [[3], [4]]] : Tensor3 ℚ)
            (2 * 0 + 1) (2 * 0 + 1) 0))) :=
  ⟨by decide, by decide, by decide,
    C7_maxpool ([[[(1 : ℚ)], [2]], [[3], [4]]] : Tensor3 ℚ) 0 0 0
      (by decide) (by decide) (by decide)⟩

/-- C9: the regularizer passes activations through unchanged outside
training, inference output is independent of the dropout randomness
(so two inference runs on one input give identical class-score
sequences), and during training a masked-out position is zeroed. -/
theorem C9_dropout_inference {α : Type} [LinearOrderedField α]
    (e : α → α) (p : ModelParams α) (input : Tensor3 α) (rate : α)
    (mask mask2 : List Bool) (x : List α) (i : Nat)
    (hm : mask.getD i true = false) :
    dropoutLayer false rate mask x = x ∧
    forward e false mask p input = forward e false mask2 p input ∧
    (dropoutLayer true rate mask x).getD i 0 = 0 :=
  ⟨rfl, rfl, dropout_true_zero rate mask x i hm⟩

/-- Witness for C9 at concrete mask, input and parameters. -/
theorem C9_dropout_inference_witness :
    ([false] : List Bool).getD 0 true = false ∧
    (dropoutLayer false (1 / 5 : ℚ) [false] [3] = [3] ∧
      forward (fun v : ℚ => v) false [false]
          { convFilters := [], convBiases := [], dense1W := [],
            dense1B := [], dense2W := [], dense2B := [] } ([] : Tensor3 ℚ)
        = forward (fun v : ℚ => v) false [true]
          { convFilters := [], convBiases := [], dense1W := [],
            dense1B := [], dense2W := [], dense2B := [] } ([] : Tensor3 ℚ) ∧
      (dropoutLayer true (1 / 5 : ℚ) [false] [3]).getD 0 0 = 0) :=
  ⟨by decide,
    C9_dropout_inference (fun v : ℚ => v)
      { convFilters := [], convBiases := [], dense1W := [],
        dense1B := [], dense2W := [], dense2B := [] } ([] : Tensor3 ℚ)
      (1 / 5) [false] [true] [3] 0 (by decide)⟩

/-- C4: converting the single-file checkpoint to directory form keeps
the layer configuration, and for rectangular parameter tensors the
reloaded parameters equal the originals, so inference from the
directory form returns predictions identical to inference from the
single-file checkpoint on every batch. -/
theorem C4_convert_preserves (cp : Checkpoint ℚ)
    (h4 : rect4 cp.params.convFilters)
    (h1 : rect2 cp.params.dense1W)
    (h2 : rect2 cp.params.dense2W) :
    (convertToDir cp).structureDef = cp.config ∧
    loadDirParams (convertToDir cp) = some cp.params ∧
    ∀ (e : ℚ → ℚ) (batch : List (Tensor3 ℚ)),
      predictFromDir e (convertToDir cp) batch
        = some (predictFromFile e cp batch) := by
  have hload : loadDirParams (convertToDir cp) = some cp.params := by
    have e4 := unflatten4_ser cp.params.convFilters
      ((cp.params.convFilters.headD []).length)
      (((cp.params.convFilters.headD []).headD []).length)
      ((((cp.params.convFilters.headD []).headD []).headD []).length) h4
    have e1 := unflatten2_ser cp.params.dense1W h1
    have e2 := unflatten2_ser cp.params.dense2W h2
    simp only [convertToDir, loadDirParams, ser4, ser2, ser1]
    rw [e4, e1, e2]
  refine ⟨rfl, hload, ?_⟩
  intro e batch
  unfold predictFromDir predictFromFile
  rw [hload]
  rfl

/-- Witness for C4 at a concrete checkpoint with empty parameter
tensors. -/
theorem C4_convert_preserves_witness :
    rect4 ((⟨mnistModel, ⟨[], [], [], [], [], []⟩, none⟩ :
      Checkpoint ℚ)).params.convFilters ∧
    rect2 ((⟨mnistModel, ⟨[], [], [], [], [], []⟩, none⟩ :
      Checkpoint ℚ)).params.dense1W ∧
    rect2 ((⟨mnistModel, ⟨[], [], [], [], [], []⟩, none⟩ :
      Checkpoint ℚ)).params.dense2W ∧
    ((convertToDir (⟨mnistModel, ⟨[], [], [], [], [], []⟩, none⟩ :
        Checkpoint ℚ)).structureDef
        = (⟨mnistModel, ⟨[], [], [], [], [], []⟩, none⟩ :
          Checkpoint ℚ).config ∧
      loadDirParams (convertToDir (⟨mnistModel, ⟨[], [], [], [], [], []⟩,
            none⟩ : Checkpoint ℚ))
        = some (⟨mnistModel, ⟨[], [], [], [], [], []⟩, none⟩ :
            Checkpoint ℚ).params ∧
      ∀ (e : ℚ → ℚ) (batch : List (Tensor3 ℚ)),
        predictFromDir e (convertToDir (⟨mnistModel,
              ⟨[], [], [], [], [], []⟩, none⟩ : Checkpoint ℚ)) batch
          = some (predictFromFile e (⟨mnistModel, ⟨[], [], [], [], [], []⟩,
              none⟩ : Checkpoint ℚ) batch)) :=
  ⟨fun t ht => absurd ht (List.not_mem_nil t),
    fun r hr => absurd hr (List.not_mem_nil r),
    fun r hr => absurd hr (List.not_mem_nil r),
    C4_convert_preserves (⟨mnistModel, ⟨[], [], [], [], [], []⟩, none⟩ :
        Checkpoint ℚ)
      (fun t ht => absurd ht (List.not_mem_nil t))
      (fun r hr => absurd hr (List.not_mem_nil r))
      (fun r hr => absurd hr (List.not_mem_nil r))⟩

/-- C10: the save call runs with overwrite and include-optimizer
enabled, so for every prior file store — in particular one already
holding a file named mnist-model.h5 — it succeeds without failing or
prompting, the file afterwards holds the newly saved checkpoint, and
that checkpoint carries the optimizer state. -/
theorem C10_save_overwrite (p : ModelParams ℚ) (opt : List ℚ)
    (fs : FileStore ℚ) :
    saveCall p opt fs
      = some (writeFile fs "mnist-model.h5"
          { config := mnistModel, params := p, optState := some opt }) ∧
    lookupFile (writeFile fs "mnist-model.h5"
        { config := mnistModel, params := p, optState := some opt })
      "mnist-model.h5"
      = some { config := mnistModel, params := p, optState := some opt } := by
  constructor
  · rfl
  · unfold lookupFile writeFile
    rw [List.find?_cons_of_pos]
    · rfl
    · rfl

end MNIST
